import Mathlib

/-!
Verification development for the STIMPL evaluation core (`stimpl/runtime.py`).

The embedding follows the source file `src/stimpl/runtime.py`:
* the environment chain (`State` / `EmptyState`, with `set_value` / `get_value`),
* the recursive `evaluate` function dispatching on AST node variants.

The AST node set, the runtime type enumeration and the three error kinds are
consumed by `runtime.py` from sibling modules (`stimpl/expression.py`,
`stimpl/types.py`, `stimpl/errors.py`) that are structurally determined by the
pattern matches in `runtime.py` and by the spec's closed enumerations; they are
reproduced here as plain inductive types.

Python dynamic-value semantics that `runtime.py` relies on (`==` between a
value and `0`, truthiness, `//` floor division) are modelled explicitly below.
Python `float` payloads are modelled as rationals; no claim in this development
depends on IEEE-754 rounding or float formatting.
-/

namespace Stimpl

/-- Runtime types: the closed enumeration {Unit, Integer, FloatingPoint,
String, Boolean} from `stimpl/types.py`; equality is nominal (tag equality). -/
inductive Ty where
  | Unit
  | Integer
  | FloatingPoint
  | String
  | Boolean
deriving DecidableEq, Repr

/-- Runtime values: Python `None` for Unit, `int`, `float` (modelled as a
rational), `str`, `bool`. A value always travels paired with a `Ty` tag. -/
inductive Value where
  | VNone
  | VInt (n : Int)
  | VFloat (q : Rat)
  | VStr (s : String)
  | VBool (b : Bool)
deriving DecidableEq, Repr

/-- The three error kinds of `stimpl/errors.py`: `InterpSyntaxError`,
`InterpTypeError`, `InterpMathError`. -/
inductive Err where
  | synErr
  | typeErr
  | mathErr
deriving DecidableEq, Repr

/-- The environment chain: `EmptyState` is the terminal frame, and each
`State(variable_name, value, type, next_state)` frame holds one binding
(`runtime.py`, classes `State` and `EmptyState`). -/
inductive State where
  | empty
  | frame (variable_name : String) (v : Value) (t : Ty) (next_state : State)
deriving DecidableEq, Repr

/-- `State.get_value` (`runtime.py` lines 25-33 and 46-47): returns the head
binding when the name matches, otherwise recurses into `next_state`;
`EmptyState.get_value` returns `None`, modelled as `none`. -/
def State.get_value : State → String → Option (Value × Ty)
  | .empty, _ => none
  | .frame name v t next, variable_name =>
      if variable_name = name then some (v, t) else next.get_value variable_name

/-- `State.set_value` (`runtime.py` lines 22-23): returns a new head frame
whose tail is the receiver; never mutates. -/
def State.set_value (s : State) (variable_name : String) (v : Value) (t : Ty) : State :=
  .frame variable_name v t s

/-- The AST node variants consumed by `evaluate`'s `match` in `runtime.py`
(defined in `stimpl/expression.py`). `Assign`'s target is a `Variable` node in
the source; only its `variable_name` field is ever read, so the name is stored
directly. -/
inductive Expr where
  | Ren
  | IntLiteral (literal : Int)
  | FloatingPointLiteral (literal : Rat)
  | StringLiteral (literal : String)
  | BooleanLiteral (literal : Bool)
  | Print (to_print : Expr)
  | Sequence (exprs : List Expr)
  | Program (exprs : List Expr)
  | Variable (variable_name : String)
  | Assign (variable_name : String) (value : Expr)
  | Add (left : Expr) (right : Expr)
  | Subtract (left : Expr) (right : Expr)
  | Multiply (left : Expr) (right : Expr)
  | Divide (left : Expr) (right : Expr)
  | And (left : Expr) (right : Expr)
  | Or (left : Expr) (right : Expr)
  | Not (expr : Expr)
  | If (condition : Expr) (t : Expr) (f : Expr)
  | Lt (left : Expr) (right : Expr)
  | Lte (left : Expr) (right : Expr)
  | Gt (left : Expr) (right : Expr)
  | Gte (left : Expr) (right : Expr)
  | Eq (left : Expr) (right : Expr)
  | Ne (left : Expr) (right : Expr)
  | While (condition : Expr) (body : Expr)
deriving Repr

/-- Numeric view of a Python value: `bool` is a numeric type in Python
(`False == 0`, `True == 1`); `int` and `float` compare numerically. -/
def toNum : Value → Option Rat
  | .VInt n => some (n : Rat)
  | .VFloat q => some q
  | .VBool b => some (if b then 1 else 0)
  | _ => none

/-- Python `==` between runtime values: cross-type numeric equality for
int/float/bool, structural equality for strings, `None == None`; every other
mixed pair is unequal. -/
def pyEq (a b : Value) : Bool :=
  match toNum a, toNum b with
  | some x, some y => x == y
  | _, _ =>
      match a, b with
      | .VStr x, .VStr y => x == y
      | .VNone, .VNone => true
      | _, _ => false

/-- Python `<` between runtime values: numeric order for int/float/bool,
lexicographic order for strings. Pairs Python would refuse to order are
unreachable here: `evaluate` compares values only after their type tags were
found equal. -/
def pyLt (a b : Value) : Bool :=
  match toNum a, toNum b with
  | some x, some y => decide (x < y)
  | _, _ =>
      match a, b with
      | .VStr x, .VStr y => decide (x < y)
      | _, _ => false

/-- Python `<=` between runtime values, mirroring `pyLt`. -/
def pyLe (a b : Value) : Bool :=
  match toNum a, toNum b with
  | some x, some y => decide (x ≤ y)
  | _, _ =>
      match a, b with
      | .VStr x, .VStr y => decide (x ≤ y)
      | _, _ => false

/-- Python truthiness of a runtime value (`if result`, `while result`). -/
def pyTruthy : Value → Bool
  | .VNone => false
  | .VInt n => !(n == 0)
  | .VFloat q => !(q == 0)
  | .VStr s => !(s == "")
  | .VBool b => b

/-- Python `+` on same-kind operands (`Add` dispatches only after the type
tags matched: numeric addition, string concatenation). Mixed-kind pairs are
unreachable because values stay paired with their type tags. -/
def pyAdd : Value → Value → Value
  | .VInt a, .VInt b => .VInt (a + b)
  | .VFloat a, .VFloat b => .VFloat (a + b)
  | .VStr a, .VStr b => .VStr (a ++ b)
  | _, _ => .VNone

/-- Python `-` on same-kind numeric operands. -/
def pySub : Value → Value → Value
  | .VInt a, .VInt b => .VInt (a - b)
  | .VFloat a, .VFloat b => .VFloat (a - b)
  | _, _ => .VNone

/-- Python `*` on same-kind numeric operands. -/
def pyMul : Value → Value → Value
  | .VInt a, .VInt b => .VInt (a * b)
  | .VFloat a, .VFloat b => .VFloat (a * b)
  | _, _ => .VNone

/-- Python `//` on integers: floor division (rounds toward negative
infinity), i.e. `Int.fdiv`. -/
def pyFloorDiv : Value → Value → Value
  | .VInt a, .VInt b => .VInt (Int.fdiv a b)
  | _, _ => .VNone

/-- Python `/` on floats: exact division on the rational model. -/
def pyDiv : Value → Value → Value
  | .VFloat a, .VFloat b => .VFloat (a / b)
  | _, _ => .VNone

/-- Python `left and right` on Boolean-tagged values. -/
def pyAnd : Value → Value → Value
  | .VBool a, .VBool b => .VBool (a && b)
  | _, _ => .VNone

/-- Python `left or right` on Boolean-tagged values. -/
def pyOr : Value → Value → Value
  | .VBool a, .VBool b => .VBool (a || b)
  | _, _ => .VNone

/-- Python `not` on a Boolean-tagged value. -/
def pyNot : Value → Value
  | .VBool b => .VBool (!b)
  | _ => .VNone

/-- Textual form printed by the `Print` node for non-Unit values
(`f"{printable_value}"`); the float rendering is an approximation, and no
claim depends on it. -/
def pyStr : Value → String
  | .VNone => "None"
  | .VInt n => toString n
  | .VFloat q => toString q
  | .VStr s => s
  | .VBool b => if b then "True" else "False"

/-- The data model's pairing invariant: a runtime value carried with type tag
`t` is of the kind `t` names (spec §3: "A value is always paired with a type
tag; the pairing is never separated"). -/
def valueHasTy : Value → Ty → Bool
  | .VNone, .Unit => true
  | .VInt _, .Integer => true
  | .VFloat _, .FloatingPoint => true
  | .VStr _, .String => true
  | .VBool _, .Boolean => true
  | _, _ => false

/-- Result of one evaluation: the `(value, type, new state)` triple on
success together with the lines printed along the way, a raised error kind
together with the lines printed before the raise, or fuel exhaustion
(an artifact of the embedding: the Python evaluator just keeps running). -/
inductive EvalRes where
  | ok (v : Value) (t : Ty) (s : State) (out : List String)
  | err (e : Err) (out : List String)
  | timeout
deriving DecidableEq, Repr

/-- Prepends previously emitted output to a result. -/
def EvalRes.withOut (o : List String) : EvalRes → EvalRes
  | .ok v t s o2 => .ok v t s (o ++ o2)
  | .err e o2 => .err e (o ++ o2)
  | .timeout => .timeout

/-- The `for expr in exprs` loop of the `Sequence | Program` case: threads
`(value, type, state)` left to right through the children, keeping the last
child's result. -/
def evalList (f : Expr → State → EvalRes) :
    List Expr → Value → Ty → State → List String → EvalRes
  | [], v, t, s, out => .ok v t s out
  | e :: rest, _, _, s, out =>
      match f e s with
      | .ok v2 t2 s2 o2 => evalList f rest v2 t2 s2 (out ++ o2)
      | .err er o2 => .err er (out ++ o2)
      | .timeout => .timeout

/-- The evaluator (`runtime.py`, function `evaluate`), indexed by fuel:
every recursive call of the source becomes a call at `fuel`; `0` fuel is
`timeout`. Apart from the fuel the cases transcribe the source one to one;
the `case _` fallback of the source is unreachable because `Expr` is closed,
and `While` re-enters its own case to model the source's `while` loop (body,
then condition with its Boolean re-check). -/
def evaluate : Nat → Expr → State → EvalRes
  | 0, _, _ => .timeout
  | Nat.succ fuel, expression, state =>
      match expression with
      | .Ren => .ok .VNone .Unit state []
      | .IntLiteral l => .ok (.VInt l) .Integer state []
      | .FloatingPointLiteral l => .ok (.VFloat l) .FloatingPoint state []
      | .StringLiteral l => .ok (.VStr l) .String state []
      | .BooleanLiteral l => .ok (.VBool l) .Boolean state []
      | .Print to_print =>
          match evaluate fuel to_print state with
          | .ok v t s2 o =>
              .ok v t s2 (o ++ [if t = .Unit then "Unit" else pyStr v])
          | r => r
      | .Sequence exprs =>
          match evaluate fuel .Ren state with
          | .ok v t s2 o => evalList (evaluate fuel) exprs v t s2 o
          | r => r
      | .Program exprs =>
          match evaluate fuel .Ren state with
          | .ok v t s2 o => evalList (evaluate fuel) exprs v t s2 o
          | r => r
      | .Variable variable_name =>
          match state.get_value variable_name with
          | none => .err .synErr []
          | some (v, t) => .ok v t state []
      | .Assign variable_name value =>
          match evaluate fuel value state with
          | .ok value_result value_type new_state o =>
              match new_state.get_value variable_name with
              | some (_, variable_type) =>
                  if value_type ≠ variable_type then .err .typeErr o
                  else .ok value_result value_type
                    (new_state.set_value variable_name value_result value_type) o
              | none =>
                  .ok value_result value_type
                    (new_state.set_value variable_name value_result value_type) o
          | r => r
      | .Add left right =>
          match evaluate fuel left state with
          | .ok lv lt s1 o1 =>
              match evaluate fuel right s1 with
              | .ok rv rt s2 o2 =>
                  if lt ≠ rt then .err .typeErr (o1 ++ o2)
                  else
                    match lt with
                    | .Integer | .String | .FloatingPoint =>
                        .ok (pyAdd lv rv) lt s2 (o1 ++ o2)
                    | _ => .err .typeErr (o1 ++ o2)
              | .err e o2 => .err e (o1 ++ o2)
              | .timeout => .timeout
          | r => r
      | .Subtract left right =>
          match evaluate fuel left state with
          | .ok lv lt s1 o1 =>
              match evaluate fuel right s1 with
              | .ok rv rt s2 o2 =>
                  if lt ≠ rt then .err .typeErr (o1 ++ o2)
                  else
                    match lt with
                    | .Integer | .FloatingPoint => .ok (pySub lv rv) lt s2 (o1 ++ o2)
                    | _ => .err .typeErr (o1 ++ o2)
              | .err e o2 => .err e (o1 ++ o2)
              | .timeout => .timeout
          | r => r
      | .Multiply left right =>
          match evaluate fuel left state with
          | .ok lv lt s1 o1 =>
              match evaluate fuel right s1 with
              | .ok rv rt s2 o2 =>
                  if lt ≠ rt then .err .typeErr (o1 ++ o2)
                  else
                    match lt with
                    | .Integer | .FloatingPoint => .ok (pyMul lv rv) lt s2 (o1 ++ o2)
                    | _ => .err .typeErr (o1 ++ o2)
              | .err e o2 => .err e (o1 ++ o2)
              | .timeout => .timeout
          | r => r
      | .Divide left right =>
          match evaluate fuel left state with
          | .ok lv lt s1 o1 =>
              match evaluate fuel right s1 with
              | .ok rv rt s2 o2 =>
                  if lt ≠ rt then .err .typeErr (o1 ++ o2)
                  else if pyEq rv (.VInt 0) then .err .mathErr (o1 ++ o2)
                  else
                    match lt with
                    | .Integer => .ok (pyFloorDiv lv rv) lt s2 (o1 ++ o2)
                    | .FloatingPoint => .ok (pyDiv lv rv) lt s2 (o1 ++ o2)
                    | _ => .err .typeErr (o1 ++ o2)
              | .err e o2 => .err e (o1 ++ o2)
              | .timeout => .timeout
          | r => r
      | .And left right =>
          match evaluate fuel left state with
          | .ok lv lt s1 o1 =>
              match evaluate fuel right s1 with
              | .ok rv rt s2 o2 =>
                  if lt ≠ rt then .err .typeErr (o1 ++ o2)
                  else
                    match lt with
                    | .Boolean => .ok (pyAnd lv rv) lt s2 (o1 ++ o2)
                    | _ => .err .typeErr (o1 ++ o2)
              | .err e o2 => .err e (o1 ++ o2)
              | .timeout => .timeout
          | r => r
      | .Or left right =>
          match evaluate fuel left state with
          | .ok lv lt s1 o1 =>
              match evaluate fuel right s1 with
              | .ok rv rt s2 o2 =>
                  if lt ≠ rt then .err .typeErr (o1 ++ o2)
                  else
                    match lt with
                    | .Boolean => .ok (pyOr lv rv) lt s2 (o1 ++ o2)
                    | _ => .err .typeErr (o1 ++ o2)
              | .err e o2 => .err e (o1 ++ o2)
              | .timeout => .timeout
          | r => r
      | .Not expr =>
          match evaluate fuel expr state with
          | .ok v t s2 o =>
              match t with
              | .Boolean => .ok (pyNot v) t s2 o
              | _ => .err .typeErr o
          | r => r
      | .If condition t f =>
          match evaluate fuel condition state with
          | .ok cv ct s1 o =>
              match ct with
              | .Boolean =>
                  (if pyTruthy cv then evaluate fuel t s1
                   else evaluate fuel f s1).withOut o
              | _ => .err .typeErr o
          | r => r
      | .Lt left right =>
          match evaluate fuel left state with
          | .ok lv lt s1 o1 =>
              match evaluate fuel right s1 with
              | .ok rv rt s2 o2 =>
                  if lt ≠ rt then .err .typeErr (o1 ++ o2)
                  else
                    match lt with
                    | .Integer | .Boolean | .String | .FloatingPoint =>
                        .ok (.VBool (pyLt lv rv)) .Boolean s2 (o1 ++ o2)
                    | .Unit => .ok (.VBool false) .Boolean s2 (o1 ++ o2)
              | .err e o2 => .err e (o1 ++ o2)
              | .timeout => .timeout
          | r => r
      | .Lte left right =>
          match evaluate fuel left state with
          | .ok lv lt s1 o1 =>
              match evaluate fuel right s1 with
              | .ok rv rt s2 o2 =>
                  if lt ≠ rt then .err .typeErr (o1 ++ o2)
                  else
                    match lt with
                    | .Integer | .Boolean | .String | .FloatingPoint =>
                        .ok (.VBool (pyLe lv rv)) .Boolean s2 (o1 ++ o2)
                    | .Unit => .ok (.VBool true) .Boolean s2 (o1 ++ o2)
              | .err e o2 => .err e (o1 ++ o2)
              | .timeout => .timeout
          | r => r
      | .Gt left right =>
          match evaluate fuel left state with
          | .ok lv lt s1 o1 =>
              match evaluate fuel right s1 with
              | .ok rv rt s2 o2 =>
                  if lt ≠ rt then .err .typeErr (o1 ++ o2)
                  else
                    match lt with
                    | .Integer | .Boolean | .String | .FloatingPoint =>
                        .ok (.VBool (pyLt rv lv)) .Boolean s2 (o1 ++ o2)
                    | .Unit => .ok (.VBool false) .Boolean s2 (o1 ++ o2)
              | .err e o2 => .err e (o1 ++ o2)
              | .timeout => .timeout
          | r => r
      | .Gte left right =>
          match evaluate fuel left state with
          | .ok lv lt s1 o1 =>
              match evaluate fuel right s1 with
              | .ok rv rt s2 o2 =>
                  if lt ≠ rt then .err .typeErr (o1 ++ o2)
                  else
                    match lt with
                    | .Integer | .Boolean | .String | .FloatingPoint =>
                        .ok (.VBool (pyLe rv lv)) .Boolean s2 (o1 ++ o2)
                    | .Unit => .ok (.VBool true) .Boolean s2 (o1 ++ o2)
              | .err e o2 => .err e (o1 ++ o2)
              | .timeout => .timeout
          | r => r
      | .Eq left right =>
          match evaluate fuel left state with
          | .ok lv lt s1 o1 =>
              match evaluate fuel right s1 with
              | .ok rv rt s2 o2 =>
                  if lt ≠ rt then .err .typeErr (o1 ++ o2)
                  else
                    match lt with
                    | .Integer | .Boolean | .String | .FloatingPoint =>
                        .ok (.VBool (pyEq lv rv)) .Boolean s2 (o1 ++ o2)
                    | .Unit => .ok (.VBool true) .Boolean s2 (o1 ++ o2)
              | .err e o2 => .err e (o1 ++ o2)
              | .timeout => .timeout
          | r => r
      | .Ne left right =>
          match evaluate fuel left state with
          | .ok lv lt s1 o1 =>
              match evaluate fuel right s1 with
              | .ok rv rt s2 o2 =>
                  if lt ≠ rt then .err .typeErr (o1 ++ o2)
                  else
                    match lt with
                    | .Integer | .Boolean | .String | .FloatingPoint =>
                        .ok (.VBool (!(pyEq lv rv))) .Boolean s2 (o1 ++ o2)
                    | .Unit => .ok (.VBool false) .Boolean s2 (o1 ++ o2)
              | .err e o2 => .err e (o1 ++ o2)
              | .timeout => .timeout
          | r => r
      | .While condition body =>
          match evaluate fuel condition state with
          | .ok cv ct s1 o =>
              match ct with
              | .Boolean =>
                  if pyTruthy cv then
                    match evaluate fuel body s1 with
                    | .ok _ _ s2 o2 =>
                        (evaluate fuel (.While condition body) s2).withOut (o ++ o2)
                    | .err e o2 => .err e (o ++ o2)
                    | .timeout => .timeout
                  else .ok cv .Boolean s1 o
              | _ => .err .typeErr o
          | r => r

/-- Top-level run (`run_stimpl`): evaluates a program in the empty chain. -/
def run_stimpl (fuel : Nat) (program : Expr) : EvalRes :=
  evaluate fuel program .empty

/-- Looks up a name in the final environment of a successful result. -/
def resultLookup (r : EvalRes) (n : String) : Option (Value × Ty) :=
  match r with
  | .ok _ _ s _ => s.get_value n
  | _ => none

/-- True exactly when the result is a completed `(value, type, state)`
triple, i.e. the evaluation terminated without error within the fuel. -/
def resultIsOk : EvalRes → Bool
  | .ok _ _ _ _ => true
  | _ => false

/-- The spec's §8 while-loop accumulation program: a counter incremented from
0 while less than 5, summed into a second variable each iteration. -/
def loopProgram : Expr :=
  .Program [
    .Assign "counter" (.IntLiteral 0),
    .Assign "sum" (.IntLiteral 0),
    .While (.Lt (.Variable "counter") (.IntLiteral 5))
      (.Sequence [
        .Assign "sum" (.Add (.Variable "sum") (.Variable "counter")),
        .Assign "counter" (.Add (.Variable "counter") (.IntLiteral 1))])]

/-- Claim C2: on every chain `c`, looking up `n` after `set_value c n v t`
returns `(v, t)` (most recent binding wins), and looking up any other name
`n2` returns exactly what lookup on `c` returns (extension never disturbs
other bindings). -/
theorem lookup_extend_shadowing (c : State) (n : String) (v : Value) (t : Ty) :
    (c.set_value n v t).get_value n = some (v, t) ∧
    ∀ n2, n2 ≠ n → (c.set_value n v t).get_value n2 = c.get_value n2 := by
  constructor
  · simp [State.set_value, State.get_value]
  · intro n2 h
    simp [State.set_value, State.get_value, h]

/-- Witness for `lookup_extend_shadowing` at a concrete chain and names. -/
theorem lookup_extend_shadowing_witness :
    (State.empty.set_value "x" (.VInt 1) .Integer).get_value "x"
      = some (.VInt 1, .Integer) ∧
    (State.empty.set_value "x" (.VInt 1) .Integer).get_value "y"
      = State.empty.get_value "y" :=
  ⟨(lookup_extend_shadowing .empty "x" (.VInt 1) .Integer).1,
   (lookup_extend_shadowing .empty "x" (.VInt 1) .Integer).2 "y" (by decide)⟩

/-- Claim C9: evaluating a variable reference fails with `SyntaxError` when
the name has no binding in the current chain, and otherwise returns the bound
`(value, type)` with the input chain unchanged and nothing printed. -/
theorem variable_read_semantics (fuel : Nat) (s : State) (n : String) :
    (s.get_value n = none →
        evaluate (fuel + 1) (.Variable n) s = .err .synErr []) ∧
    ∀ v t, s.get_value n = some (v, t) →
        evaluate (fuel + 1) (.Variable n) s = .ok v t s [] := by
  constructor
  · intro h
    simp [evaluate, h]
  · intro v t h
    simp [evaluate, h]

/-- Witness for `variable_read_semantics`: an unbound and a bound name. -/
theorem variable_read_semantics_witness :
    evaluate 1 (.Variable "x") .empty = .err .synErr [] ∧
    evaluate 1 (.Variable "y") (State.empty.set_value "y" (.VInt 3) .Integer)
      = .ok (.VInt 3) .Integer (State.empty.set_value "y" (.VInt 3) .Integer) [] :=
  ⟨(variable_read_semantics 0 .empty "x").1 (by decide),
   (variable_read_semantics 0 (State.empty.set_value "y" (.VInt 3) .Integer) "y").2
     (.VInt 3) .Integer (by decide)⟩

/-- Claim C3: `Assign` first evaluates the value expression to
`(v, t, s1)`; when the target is bound in `s1` at a different type it fails
with `TypeError`; when the target is unbound, or bound at the same type, it
returns `(v, t)` with the chain extended by the new binding. -/
theorem assign_semantics (fuel : Nat) (n : String) (e : Expr) (s s1 : State)
    (v : Value) (t : Ty) (o : List String)
    (h : evaluate fuel e s = .ok v t s1 o) :
    (∀ v0 t0, s1.get_value n = some (v0, t0) → t0 ≠ t →
        evaluate (fuel + 1) (.Assign n e) s = .err .typeErr o) ∧
    (s1.get_value n = none →
        evaluate (fuel + 1) (.Assign n e) s = .ok v t (s1.set_value n v t) o) ∧
    (∀ v0, s1.get_value n = some (v0, t) →
        evaluate (fuel + 1) (.Assign n e) s = .ok v t (s1.set_value n v t) o) := by
  refine ⟨?_, ?_, ?_⟩
  · intro v0 t0 hb hne
    simp [evaluate, h, hb, Ne.symm hne]
  · intro hb
    simp [evaluate, h, hb]
  · intro v0 hb
    simp [evaluate, h, hb]

/-- Witness for `assign_semantics`: a fresh assignment succeeds and extends
the chain; re-assigning at a different type is a `TypeError`. -/
theorem assign_semantics_witness :
    evaluate 2 (.Assign "x" (.IntLiteral 5)) .empty
      = .ok (.VInt 5) .Integer (State.empty.set_value "x" (.VInt 5) .Integer) [] ∧
    evaluate 2 (.Assign "x" (.BooleanLiteral true))
        (State.empty.set_value "x" (.VInt 1) .Integer)
      = .err .typeErr [] :=
  ⟨(assign_semantics 1 "x" (.IntLiteral 5) .empty .empty (.VInt 5) .Integer []
      (by decide)).2.1 (by decide),
   (assign_semantics 1 "x" (.BooleanLiteral true)
      (State.empty.set_value "x" (.VInt 1) .Integer)
      (State.empty.set_value "x" (.VInt 1) .Integer)
      (.VBool true) .Boolean [] (by decide)).1 (.VInt 1) .Integer (by decide)
      (by decide)⟩

/-- Counterexample to claim C1 as stated: dividing two Boolean operands whose
right value is `False` raises `MathError`, not `TypeError`, because the
zero-divisor check `right_result == 0` runs before the type dispatch and
Python treats `False` as equal to `0`. -/
theorem divide_boolean_mathErr_counterexample :
    evaluate 2 (.Divide (.BooleanLiteral true) (.BooleanLiteral false)) .empty
      = .err .mathErr [] := by decide

/-- Claim C1 as amended: `Divide` on two Unit-typed operands always fails
with `TypeError`; on two Boolean-typed operands it fails with `MathError`
when the right operand's value is `False` (Python `False == 0`) and with
`TypeError` otherwise — it never produces a value. -/
theorem divide_boolean_unit_amended (fuel : Nat) (l r : Expr) (s s1 s2 : State)
    (lv rv : Value) (o1 o2 : List String) :
    (evaluate fuel l s = .ok lv .Unit s1 o1 →
      evaluate fuel r s1 = .ok rv .Unit s2 o2 →
      valueHasTy rv .Unit = true →
      evaluate (fuel + 1) (.Divide l r) s = .err .typeErr (o1 ++ o2)) ∧
    (evaluate fuel l s = .ok lv .Boolean s1 o1 →
      evaluate fuel r s1 = .ok rv .Boolean s2 o2 →
      valueHasTy rv .Boolean = true →
      evaluate (fuel + 1) (.Divide l r) s
        = .err (if rv = .VBool false then .mathErr else .typeErr) (o1 ++ o2)) := by
  constructor
  · intro hl hr hwf
    cases rv <;> simp [valueHasTy] at hwf
    simp [evaluate, hl, hr, pyEq, toNum]
  · intro hl hr hwf
    cases rv <;> simp [valueHasTy] at hwf
    rename_i b
    cases b <;> simp [evaluate, hl, hr, pyEq, toNum]

/-- Witness for `divide_boolean_unit_amended`: Unit operands give
`TypeError`; Boolean operands with a `True` divisor give `TypeError`. -/
theorem divide_boolean_unit_amended_witness :
    evaluate 2 (.Divide .Ren .Ren) .empty = .err .typeErr [] ∧
    evaluate 2 (.Divide (.BooleanLiteral true) (.BooleanLiteral true)) .empty
      = .err .typeErr [] := by
  constructor
  · exact (divide_boolean_unit_amended 1 .Ren .Ren .empty .empty .empty
      .VNone .VNone [] []).1 (by decide) (by decide) (by decide)
  · have h := (divide_boolean_unit_amended 1 (.BooleanLiteral true)
      (.BooleanLiteral true) .empty .empty .empty (.VBool true) (.VBool true)
      [] []).2 (by decide) (by decide) (by decide)
    simpa using h

/-- Claim C5: `Divide` on Integer operands is floor division (`Int.fdiv`,
truncating toward negative infinity) when the divisor is nonzero, and a
`MathError` when the divisor is zero; in particular `7 // 2 = 3` and `1 // 0`
raises `MathError`. -/
theorem divide_integer_floor (fuel : Nat) (l r : Expr) (s s1 s2 : State)
    (a b : Int) (o1 o2 : List String)
    (hl : evaluate fuel l s = .ok (.VInt a) .Integer s1 o1)
    (hr : evaluate fuel r s1 = .ok (.VInt b) .Integer s2 o2) :
    (b ≠ 0 → evaluate (fuel + 1) (.Divide l r) s
        = .ok (.VInt (Int.fdiv a b)) .Integer s2 (o1 ++ o2)) ∧
    (b = 0 → evaluate (fuel + 1) (.Divide l r) s = .err .mathErr (o1 ++ o2)) ∧
    evaluate 2 (.Divide (.IntLiteral 7) (.IntLiteral 2)) .empty
      = .ok (.VInt 3) .Integer .empty [] ∧
    evaluate 2 (.Divide (.IntLiteral 1) (.IntLiteral 0)) .empty
      = .err .mathErr [] := by
  refine ⟨?_, ?_, by decide, by decide⟩
  · intro hb
    simp [evaluate, hl, hr, pyEq, toNum, pyFloorDiv, hb]
  · intro hb
    simp [evaluate, hl, hr, pyEq, toNum, hb]

/-- Witness for `divide_integer_floor` at the spec's own inputs. -/
theorem divide_integer_floor_witness :
    evaluate 2 (.Divide (.IntLiteral 7) (.IntLiteral 2)) .empty
      = .ok (.VInt (Int.fdiv 7 2)) .Integer .empty [] ∧
    evaluate 2 (.Divide (.IntLiteral 1) (.IntLiteral 0)) .empty
      = .err .mathErr [] :=
  ⟨(divide_integer_floor 1 (.IntLiteral 7) (.IntLiteral 2) .empty .empty .empty
      7 2 [] [] (by decide) (by decide)).1 (by decide),
   (divide_integer_floor 1 (.IntLiteral 1) (.IntLiteral 0) .empty .empty .empty
      1 0 [] [] (by decide) (by decide)).2.1 (by decide)⟩

/-- Claim C6: every relational operator on two Unit-typed operands succeeds
with a Boolean result fixed independently of the operand values:
`<` is false, `<=` is true, `>` is false, `>=` is true, `==` is true,
`!=` is false. -/
theorem unit_relational_fixed (fuel : Nat) (l r : Expr) (s s1 s2 : State)
    (lv rv : Value) (o1 o2 : List String)
    (hl : evaluate fuel l s = .ok lv .Unit s1 o1)
    (hr : evaluate fuel r s1 = .ok rv .Unit s2 o2) :
    evaluate (fuel + 1) (.Lt l r) s = .ok (.VBool false) .Boolean s2 (o1 ++ o2) ∧
    evaluate (fuel + 1) (.Lte l r) s = .ok (.VBool true) .Boolean s2 (o1 ++ o2) ∧
    evaluate (fuel + 1) (.Gt l r) s = .ok (.VBool false) .Boolean s2 (o1 ++ o2) ∧
    evaluate (fuel + 1) (.Gte l r) s = .ok (.VBool true) .Boolean s2 (o1 ++ o2) ∧
    evaluate (fuel + 1) (.Eq l r) s = .ok (.VBool true) .Boolean s2 (o1 ++ o2) ∧
    evaluate (fuel + 1) (.Ne l r) s = .ok (.VBool false) .Boolean s2 (o1 ++ o2) := by
  refine ⟨?_, ?_, ?_, ?_, ?_, ?_⟩ <;> simp [evaluate, hl, hr]

/-- Witness for `unit_relational_fixed` on `Ren()` operands. -/
theorem unit_relational_fixed_witness :
    evaluate 2 (.Lt .Ren .Ren) .empty = .ok (.VBool false) .Boolean .empty [] ∧
    evaluate 2 (.Eq .Ren .Ren) .empty = .ok (.VBool true) .Boolean .empty [] :=
  ⟨(unit_relational_fixed 1 .Ren .Ren .empty .empty .empty .VNone .VNone [] []
      (by decide) (by decide)).1,
   (unit_relational_fixed 1 .Ren .Ren .empty .empty .empty .VNone .VNone [] []
      (by decide) (by decide)).2.2.2.2.1⟩

/-- Claim C7: when the condition of an `If` evaluates to a Boolean, the whole
conditional's result is exactly the chosen branch's result (with the
condition's output prepended) — the untaken branch contributes no bindings and
no output; in particular `If(False, Assign(x,1), Assign(x,2))` followed by
reading `x` yields `2`. -/
theorem if_chosen_branch_only (fuel : Nat) (c t f : Expr) (s s1 : State)
    (cv : Value) (o : List String)
    (h : evaluate fuel c s = .ok cv .Boolean s1 o) :
    evaluate (fuel + 1) (.If c t f) s
      = (if pyTruthy cv then evaluate fuel t s1 else evaluate fuel f s1).withOut o ∧
    evaluate 4 (.Program [
        .If (.BooleanLiteral false) (.Assign "x" (.IntLiteral 1))
          (.Assign "x" (.IntLiteral 2)),
        .Variable "x"]) .empty
      = .ok (.VInt 2) .Integer (State.empty.set_value "x" (.VInt 2) .Integer) [] := by
  constructor
  · simp [evaluate, h]
  · decide

/-- Witness for `if_chosen_branch_only` at a concrete false condition. -/
theorem if_chosen_branch_only_witness :
    evaluate 2 (.If (.BooleanLiteral false) (.IntLiteral 1) (.IntLiteral 2)) .empty
      = (if pyTruthy (.VBool false) then evaluate 1 (.IntLiteral 1) .empty
         else evaluate 1 (.IntLiteral 2) .empty).withOut [] :=
  (if_chosen_branch_only 1 (.BooleanLiteral false) (.IntLiteral 1) (.IntLiteral 2)
    .empty .empty (.VBool false) [] (by decide)).1

/-- Appending one more child to the `Sequence`/`Program` loop runs the loop on
the prefix and then evaluates the appended child from the threaded state. -/
theorem evalList_append (f : Expr → State → EvalRes) (es : List Expr) (e : Expr)
    (v : Value) (t : Ty) (s : State) (out : List String) :
    evalList f (es ++ [e]) v t s out =
      match evalList f es v t s out with
      | .ok _ _ s1 o1 => (f e s1).withOut o1
      | r => r := by
  induction es generalizing v t s out with
  | nil =>
      cases hfe : f e s <;> simp [evalList, hfe, EvalRes.withOut]
  | cons hd tl ih =>
      cases hfe : f hd s <;> simp [evalList, hfe, ih]

/-- Unfolding of the `Sequence` case of `evaluate` at positive fuel. -/
theorem evaluate_sequence_succ (fuel : Nat) (es : List Expr) (s : State) :
    evaluate (fuel + 1) (.Sequence es) s =
      match evaluate fuel .Ren s with
      | .ok v t s2 o => evalList (evaluate fuel) es v t s2 o
      | r => r := rfl

/-- Unfolding of the `Program` case of `evaluate` at positive fuel. -/
theorem evaluate_program_succ (fuel : Nat) (es : List Expr) (s : State) :
    evaluate (fuel + 1) (.Program es) s =
      match evaluate fuel .Ren s with
      | .ok v t s2 o => evalList (evaluate fuel) es v t s2 o
      | r => r := rfl

/-- Claim C8: an empty `Sequence`/`Program` behaves exactly as a single Unit
literal (`Ren`), returning `(absent-value, Unit, chain unchanged)`; a
non-empty one threads the chain left to right and its result is the last
child's result; and `Sequence([IntLiteral(1), IntLiteral(2)])` yields
`(2, Integer, unchanged chain)`. -/
theorem sequence_program_last_child (fuel : Nat) (es : List Expr) (e : Expr)
    (s s1 : State) (v : Value) (t : Ty) (o : List String) :
    (evaluate (fuel + 2) (.Sequence ([] : List Expr)) s = evaluate (fuel + 1) .Ren s) ∧
    (evaluate (fuel + 2) (.Program ([] : List Expr)) s = evaluate (fuel + 1) .Ren s) ∧
    (evalList (evaluate fuel) es .VNone .Unit s [] = .ok v t s1 o →
        evaluate (fuel + 1) (.Sequence (es ++ [e])) s
          = (evaluate fuel e s1).withOut o) ∧
    (evalList (evaluate fuel) es .VNone .Unit s [] = .ok v t s1 o →
        evaluate (fuel + 1) (.Program (es ++ [e])) s
          = (evaluate fuel e s1).withOut o) ∧
    evaluate 2 (.Sequence [.IntLiteral 1, .IntLiteral 2]) .empty
      = .ok (.VInt 2) .Integer .empty [] := by
  refine ⟨by simp [evaluate, evalList], by simp [evaluate, evalList], ?_, ?_, by decide⟩
  · intro h
    cases fuel with
    | zero =>
        simp [evalList, evaluate] at h ⊢
        cases es <;> simp_all [evalList, evaluate, EvalRes.withOut]
    | succ n =>
        have hr : evaluate (n + 1) .Ren s = .ok .VNone .Unit s [] := by
          simp [evaluate]
        simp only [evaluate_sequence_succ, hr, evalList_append, h]
  · intro h
    cases fuel with
    | zero =>
        simp [evalList, evaluate] at h ⊢
        cases es <;> simp_all [evalList, evaluate, EvalRes.withOut]
    | succ n =>
        have hr : evaluate (n + 1) .Ren s = .ok .VNone .Unit s [] := by
          simp [evaluate]
        simp only [evaluate_program_succ, hr, evalList_append, h]

/-- Witness for `sequence_program_last_child` on the spec's two-element
sequence. -/
theorem sequence_program_last_child_witness :
    evaluate 2 (.Sequence ([.IntLiteral 1] ++ [.IntLiteral 2])) .empty
      = (evaluate 1 (.IntLiteral 2) .empty).withOut [] :=
  (sequence_program_last_child 1 [.IntLiteral 1] (.IntLiteral 2) .empty .empty
    (.VInt 1) .Integer []).2.2.1 (by decide)

/-- Claim C4: the while-loop accumulation program (counter from 0 while
`counter < 5`, summing into `sum`) terminates — it completes within fuel 64
without error — and its final environment binds `sum` to `10` and `counter`
to `5`, both at type Integer. -/
theorem while_accumulation :
    resultIsOk (evaluate 64 loopProgram .empty) = true ∧
    resultLookup (evaluate 64 loopProgram .empty) "sum"
      = some (.VInt 10, .Integer) ∧
    resultLookup (evaluate 64 loopProgram .empty) "counter"
      = some (.VInt 5, .Integer) := by
  refine ⟨by decide, by decide, by decide⟩

/-- Claim C10: a name bound to the Unit value is readable — the absence check
distinguishes "unbound" from "bound to Unit": reading it returns the Unit
value and type, never the read-before-assignment `SyntaxError`; in particular
assigning `Ren()` to `x` and then reading `x` succeeds with the Unit value. -/
theorem unit_binding_readable (fuel : Nat) (s : State) (n : String) (v : Value)
    (h : s.get_value n = some (v, .Unit)) :
    evaluate (fuel + 1) (.Variable n) s = .ok v .Unit s [] ∧
    evaluate 3 (.Program [.Assign "x" .Ren, .Variable "x"]) .empty
      = .ok .VNone .Unit (State.empty.set_value "x" .VNone .Unit) [] := by
  exact ⟨by simp [evaluate, h], by decide⟩

/-- Witness for `unit_binding_readable` at a concrete Unit binding. -/
theorem unit_binding_readable_witness :
    evaluate 1 (.Variable "x") (State.empty.set_value "x" .VNone .Unit)
      = .ok .VNone .Unit (State.empty.set_value "x" .VNone .Unit) [] :=
  (unit_binding_readable 0 (State.empty.set_value "x" .VNone .Unit) "x" .VNone
    (by decide)).1

end Stimpl
